import Mathlib

/-!
# Verification of the mortgage-db knowledge-graph inference layer

Shallow embedding of the classification / eligibility-inference pipeline of
`loaders/create_knowledge_graph.py`, the relationship pass of
`loaders/relationships_loader.py`, and the phase orchestration of
`loaders/orchestrator.py` (with `loaders/agent_schema_alignment.py`).

Modelling conventions:
* Graph node properties that may be absent are `Option` fields; a Cypher
  comparison against an absent property (`null`) is not satisfied, and a
  `CASE` whose `WHEN` guards all compare against `null` falls through to
  its `ELSE` arm.  Numeric properties are embedded as `ℚ` (exact
  arithmetic) and credit scores as `ℤ`.
* The store's `Application` nodes are represented through the rows matched
  by `(p:Person)-[:APPLIES_FOR]->(a:Application)`: the sample-data loader
  creates exactly one applicant per application, so a pass written against
  that pattern visits each application once.
* `CREATE` of a relationship appends an `Edge` record; `SET` of a node
  label sets the corresponding `Bool` field (labels accumulate, they are
  never un-set by the inference pass).
-/

namespace MortgageDB

/-- Priority string carried on inference edges. -/
inductive Priority
  | highest
  | high
  | medium
  | low
  deriving DecidableEq, Repr

/-- The `risk_category` property values written by the risk-assessment pass. -/
inductive RiskCategory
  | LowRisk
  | MediumRisk
  | HighRisk
  deriving DecidableEq, Repr

/-- A `Person` node: only the properties read by the inference queries. -/
structure Person where
  person_id : String
  credit_score : Option ℤ := none
  person_type : Option String := none
  first_name : String := ""
  deriving DecidableEq, Repr

/-- An `Application` node: raw numeric properties, the derived properties
written back by the classifier, and the node labels set by the passes. -/
structure Application where
  application_id : String
  loan_amount : Option ℚ := none
  monthly_income : Option ℚ := none
  monthly_debts : Option ℚ := none
  down_payment_percentage : Option ℚ := none
  calculated_dti : Option ℚ := none
  calculated_risk_score : Option ℤ := none
  risk_category : Option RiskCategory := none
  lowRiskDTI : Bool := false
  mediumRiskDTI : Bool := false
  highRiskDTI : Bool := false
  lowRisk : Bool := false
  mediumRisk : Bool := false
  highRisk : Bool := false
  deriving DecidableEq, Repr

/-- An `UnderwritingRule` catalog record (`rule_type` is e.g. `"AutoApproval"`). -/
structure UnderwritingRule where
  rule_id : String
  rule_type : String
  deriving DecidableEq, Repr

/-- A `BusinessRule` catalog record (`rule_type` e.g. `"DebtToIncomeCalculation"`). -/
structure BusinessRule where
  rule_id : String
  rule_type : String
  deriving DecidableEq, Repr

/-- A typed relationship created by an inference pass, with its metadata. -/
structure Edge where
  rel_type : String
  src : String
  dst : String
  priority : Option Priority := none
  reason : Option String := none
  loan_amount : Option ℚ := none
  down_payment_savings : Option ℚ := none
  created_by : String := "knowledge_graph"
  deriving DecidableEq, Repr

/-- The record store visible to the inference passes: the matched
`APPLIES_FOR` rows, the loan-program catalog (by `name`), the rule
catalogs, and the relationship set. -/
structure Store where
  pairs : List (Person × Application)
  loanPrograms : List String
  underwritingRules : List UnderwritingRule
  businessRules : List BusinessRule
  edges : List Edge
  deriving DecidableEq, Repr

/-! ## Classifier: DTI computation and banding
(`create_income_debt_knowledge`, create_knowledge_graph.py lines 90-152) -/

/-- The DTI value the first income/debt query computes for an application,
when the application passes the `WHERE a.monthly_income > 0 AND
a.monthly_debts >= 0` filter (absent properties fail the comparison). -/
def dti_computed (a : Application) : Option ℚ :=
  match a.monthly_income, a.monthly_debts with
  | some income, some debts =>
      if 0 < income ∧ 0 ≤ debts then some (debts / income) else none
  | _, _ => none

/-- Per-application effect of the first income/debt query: set
`calculated_dti = monthly_debts / monthly_income` for eligible rows
(`* 1.0` in the source is a float coercion with no arithmetic effect in
the exact model) and add the `:LowRiskDTI` label when `dti <= 0.28`. -/
def incomeDebtApp (a : Application) : Application :=
  match a.monthly_income, a.monthly_debts with
  | some income, some debts =>
      if 0 < income ∧ 0 ≤ debts then
        let dti := debts / income
        { a with
          calculated_dti := some dti
          lowRiskDTI := a.lowRiskDTI || decide (dti ≤ 28/100) }
      else a
  | _, _ => a

/-- Per-application effect of the second income/debt query:
`WHERE a.calculated_dti > 0.28 AND a.calculated_dti <= 0.43` adds
`:MediumRiskDTI`. -/
def mediumBandApp (a : Application) : Application :=
  match a.calculated_dti with
  | some d => if 28/100 < d ∧ d ≤ 43/100 then { a with mediumRiskDTI := true } else a
  | none => a

/-- Per-application effect of the third income/debt query:
`WHERE a.calculated_dti > 0.43` adds `:HighRiskDTI`. -/
def highBandApp (a : Application) : Application :=
  match a.calculated_dti with
  | some d => if 43/100 < d then { a with highRiskDTI := true } else a
  | none => a

/-- The composite per-application effect of the three income/debt queries
run in order. -/
def dtiClassifiedApp (a : Application) : Application :=
  highBandApp (mediumBandApp (incomeDebtApp a))

/-- `MEETS_CRITERIA` edges of the first income/debt query: one per
(low-DTI application, `DebtToIncomeCalculation` business rule). -/
def meets_criteria_edges (rules : List BusinessRule) (a : Application) : List Edge :=
  match dti_computed a with
  | some dti =>
      if dti ≤ 28/100 then
        rules.filterMap fun r =>
          if r.rule_type = "DebtToIncomeCalculation" then
            some { rel_type := "MEETS_CRITERIA", src := a.application_id, dst := r.rule_id }
          else none
      else []
  | none => []

/-- `REQUIRES_REVIEW` edges of the second income/debt query. -/
def requires_review_edges (rules : List BusinessRule) (a : Application) : List Edge :=
  match a.calculated_dti with
  | some d =>
      if 28/100 < d ∧ d ≤ 43/100 then
        rules.filterMap fun r =>
          if r.rule_type = "DebtToIncomeCalculation" then
            some { rel_type := "REQUIRES_REVIEW", src := a.application_id, dst := r.rule_id }
          else none
      else []
  | none => []

/-- `LIKELY_DENIED` edges of the third income/debt query. -/
def likely_denied_edges (rules : List BusinessRule) (a : Application) : List Edge :=
  match a.calculated_dti with
  | some d =>
      if 43/100 < d then
        rules.filterMap fun r =>
          if r.rule_type = "DebtToIncomeCalculation" then
            some { rel_type := "LIKELY_DENIED", src := a.application_id, dst := r.rule_id }
          else none
      else []
  | none => []

/-- `create_income_debt_knowledge`: the three DTI queries run in order;
query 1 computes `calculated_dti` on the matched pairs, queries 2 and 3
band every application whose `calculated_dti` is set. -/
def create_income_debt_knowledge (s : Store) : Store :=
  let pairs1 := s.pairs.map fun pr => (pr.1, incomeDebtApp pr.2)
  let meets := (s.pairs.map Prod.snd).flatMap (meets_criteria_edges s.businessRules)
  let pairs2 := pairs1.map fun pr => (pr.1, mediumBandApp pr.2)
  let reviews := (pairs1.map Prod.snd).flatMap (requires_review_edges s.businessRules)
  let pairs3 := pairs2.map fun pr => (pr.1, highBandApp pr.2)
  let denied := (pairs2.map Prod.snd).flatMap (likely_denied_edges s.businessRules)
  { s with
    pairs := pairs3
    edges := s.edges ++ meets ++ reviews ++ denied }

/-! ## Eligibility linker: loan-program matching
(`create_loan_program_matching_knowledge`, create_knowledge_graph.py lines 155-215) -/

/-- `WHERE` of the VA query: `p.person_type = "veteran" OR
toLower(p.first_name) CONTAINS "military"`. -/
def va_condition (p : Person) : Bool :=
  decide (p.person_type = some "veteran") ||
    decide ("military".toList <:+: p.first_name.toLower.toList)

/-- `WHERE` of the FHA query: `a.down_payment_percentage <= 0.05 AND
p.credit_score >= 580 AND p.credit_score <= 680 AND a.calculated_dti <= 0.57`
(an absent property fails its comparison). -/
def fha_condition (p : Person) (a : Application) : Bool :=
  match a.down_payment_percentage, p.credit_score, a.calculated_dti with
  | some dp, some cs, some dti =>
      decide (dp ≤ 5/100) && decide (580 ≤ cs) && decide (cs ≤ 680) && decide (dti ≤ 57/100)
  | _, _, _ => false

/-- `WHERE` of the Jumbo query: `a.loan_amount > 766550 AND
p.credit_score >= 700 AND a.down_payment_percentage >= 0.20 AND
a.calculated_dti <= 0.38`. -/
def jumbo_condition (p : Person) (a : Application) : Bool :=
  match a.loan_amount, p.credit_score, a.down_payment_percentage, a.calculated_dti with
  | some la, some cs, some dp, some dti =>
      decide (766550 < la) && decide (700 ≤ cs) && decide (20/100 ≤ dp) && decide (dti ≤ 38/100)
  | _, _, _, _ => false

/-- The `RECOMMENDED_FOR` edge the VA query creates for a matched pair. -/
def va_edge (p : Person) (a : Application) : Edge :=
  { rel_type := "RECOMMENDED_FOR", src := p.person_id, dst := "VA"
    priority := some .highest, reason := some "veteran_status"
    down_payment_savings := (a.loan_amount).map (· * (20/100)) }

/-- The `RECOMMENDED_FOR` edge the FHA query creates for a matched pair. -/
def fha_edge (p : Person) : Edge :=
  { rel_type := "RECOMMENDED_FOR", src := p.person_id, dst := "FHA"
    priority := some .high, reason := some "first_time_buyer_profile" }

/-- The `QUALIFIES_FOR` edge the Jumbo query creates for a matched pair,
carrying `loan_amount: a.loan_amount` as edge metadata. -/
def jumbo_edge (p : Person) (a : Application) : Edge :=
  { rel_type := "QUALIFIES_FOR", src := p.person_id, dst := "Jumbo"
    priority := some .medium, reason := some "high_value_property_qualified"
    loan_amount := a.loan_amount }

/-- Edges the VA query creates for one matched pair: one per catalog entry
`(lp:LoanProgram {name: "VA"})` when the condition holds. -/
def va_edges_for_pair (programs : List String) (p : Person) (a : Application) : List Edge :=
  programs.filterMap fun name =>
    if name = "VA" ∧ va_condition p then some (va_edge p a) else none

/-- Edges the FHA query creates for one matched pair. -/
def fha_edges_for_pair (programs : List String) (p : Person) (a : Application) : List Edge :=
  programs.filterMap fun name =>
    if name = "FHA" ∧ fha_condition p a then some (fha_edge p) else none

/-- Edges the Jumbo query creates for one matched pair. -/
def jumbo_edges_for_pair (programs : List String) (p : Person) (a : Application) : List Edge :=
  programs.filterMap fun name =>
    if name = "Jumbo" ∧ jumbo_condition p a then some (jumbo_edge p a) else none

/-- All edges one run of the loan-program matching pass creates, in query
order (VA, then FHA, then Jumbo).  The pass reads only the matched pairs
and the loan-program catalog; it never reads the relationship set. -/
def matching_edges (s : Store) : List Edge :=
  s.pairs.flatMap (fun pr => va_edges_for_pair s.loanPrograms pr.1 pr.2) ++
    s.pairs.flatMap (fun pr => fha_edges_for_pair s.loanPrograms pr.1 pr.2) ++
    s.pairs.flatMap (fun pr => jumbo_edges_for_pair s.loanPrograms pr.1 pr.2)

/-- `create_loan_program_matching_knowledge`: `CREATE`s the matching edges
with no duplicate-edge check; node properties and labels are untouched. -/
def create_loan_program_matching_knowledge (s : Store) : Store :=
  { s with edges := s.edges ++ matching_edges s }

/-! ## Classifier: composite risk score and risk category
(`create_risk_assessment_knowledge`, create_knowledge_graph.py lines 218-292) -/

/-- Credit-score `CASE` of the risk query; an absent `credit_score` fails
every `WHEN` comparison, so the `ELSE 3` arm applies. -/
def credit_score_points (credit_score : Option ℤ) : ℤ :=
  match credit_score with
  | some c => if 740 ≤ c then 10 else if 680 ≤ c then 8 else if 620 ≤ c then 6 else 3
  | none => 3

/-- DTI `CASE` of the risk query; an absent `calculated_dti` falls through
to `ELSE 2`. -/
def dti_points (calculated_dti : Option ℚ) : ℤ :=
  match calculated_dti with
  | some d => if d ≤ 28/100 then 10 else if d ≤ 36/100 then 8 else if d ≤ 43/100 then 5 else 2
  | none => 2

/-- Down-payment `CASE` of the risk query; an absent
`down_payment_percentage` falls through to `ELSE 3`. -/
def down_payment_points (pct : Option ℚ) : ℤ :=
  match pct with
  | some v => if 20/100 ≤ v then 10 else if 10/100 ≤ v then 7 else if 5/100 ≤ v then 5 else 3
  | none => 3

/-- `risk_score = credit_score_points + dti_points + down_payment_points`. -/
def risk_score (p : Person) (a : Application) : ℤ :=
  credit_score_points p.credit_score + dti_points a.calculated_dti +
    down_payment_points a.down_payment_percentage

/-- The `risk_category` `CASE`: `>= 25` LowRisk, `>= 18 AND < 25`
MediumRisk, `ELSE` HighRisk. -/
def risk_category_of (rs : ℤ) : RiskCategory :=
  if 25 ≤ rs then .LowRisk
  else if 18 ≤ rs ∧ rs < 25 then .MediumRisk
  else .HighRisk

/-- Per-pair effect of the risk-scoring query: persist
`calculated_risk_score` and `risk_category` and add the matching risk
label (the three `FOREACH` guards). -/
def riskAssessApp (p : Person) (a : Application) : Application :=
  let rs := risk_score p a
  { a with
    calculated_risk_score := some rs
    risk_category := some (risk_category_of rs)
    lowRisk := a.lowRisk || decide (25 ≤ rs)
    mediumRisk := a.mediumRisk || decide (18 ≤ rs ∧ rs < 25)
    highRisk := a.highRisk || decide (rs < 18) }

/-- `ELIGIBLE_FOR` edges of the second risk query: one per
(`:LowRisk`-labelled application, `AutoApproval` underwriting rule). -/
def auto_approval_edges_for_app (rules : List UnderwritingRule) (a : Application) : List Edge :=
  rules.filterMap fun rule =>
    if a.lowRisk ∧ rule.rule_type = "AutoApproval" then
      some { rel_type := "ELIGIBLE_FOR", src := a.application_id, dst := rule.rule_id }
    else none

/-- `REQUIRES` edges of the third risk query: one per
(`:HighRisk`-labelled application, `ManualReview` underwriting rule). -/
def manual_review_edges_for_app (rules : List UnderwritingRule) (a : Application) : List Edge :=
  rules.filterMap fun rule =>
    if a.highRisk ∧ rule.rule_type = "ManualReview" then
      some { rel_type := "REQUIRES", src := a.application_id, dst := rule.rule_id }
    else none

/-- `create_risk_assessment_knowledge`: score and categorize every matched
pair, then route `:LowRisk` applications to `AutoApproval` rules and
`:HighRisk` applications to `ManualReview` rules.  No query routes
`:MediumRisk` applications. -/
def create_risk_assessment_knowledge (s : Store) : Store :=
  let pairs := s.pairs.map fun pr => (pr.1, riskAssessApp pr.1 pr.2)
  let autoEdges := (pairs.map Prod.snd).flatMap (auto_approval_edges_for_app s.underwritingRules)
  let manualEdges := (pairs.map Prod.snd).flatMap (manual_review_edges_for_app s.underwritingRules)
  { s with
    pairs := pairs
    edges := s.edges ++ autoEdges ++ manualEdges }

/-! ## Orchestrator control flow
(`orchestrator.py`, `relationships_loader.py`, `agent_schema_alignment.py`)

The loading phases are modelled by which store queries they execute and by
their exception structure: a query raising inside a phase-level `try`
aborts the phase (the phase function returns `false`), while a query
wrapped in its own per-query `try/except` is logged and skipped, so the
enclosing pass always completes.  An execution environment `env : Query →
Bool` records which queries succeed (`true`) and which raise (`false`). -/

namespace Orchestrator

/-- A store query executed during loading, tagged by the pass that runs it
and its index in that pass's query list. -/
inductive Query
  | clearQ (n : Nat)
  | referenceDataQ (n : Nat)
  | sampleDataQ (n : Nat)
  | businessRulesQ (n : Nat)
  | refRelQ (n : Nat)
  | sampleRelQ (n : Nat)
  | kgRelQ (n : Nat)
  | knowledgeGraphQ (n : Nat)
  | alignSchemaQ (n : Nat)
  | perfOptQ (n : Nat)
  | validateQ (n : Nat)
  deriving DecidableEq, Repr

/-- Which queries succeed on a given run of the loader. -/
def ExecEnv : Type := Query → Bool

/-- The 25 `DETACH DELETE` queries of `clear_all_data` (orchestrator.py
lines 71-100). -/
def clearQueries : List Query := (List.range 25).map .clearQ

/-- Query slots of `load_reference_data`: one per loader step (loan
programs, qualification requirements, process steps, borrower profiles). -/
def referenceDataQueries : List Query := (List.range 4).map .referenceDataQ

/-- Query slots of `load_sample_data`: one per entity loader (locations,
companies, people, properties, applications, documents). -/
def sampleDataQueries : List Query := (List.range 6).map .sampleDataQ

/-- Query slots of `load_business_rules`: one per rule-category insert. -/
def businessRulesQueries : List Query := (List.range 16).map .businessRulesQ

/-- The 8 queries of `create_reference_data_relationships`
(relationships_loader.py lines 30-94). -/
def refRelQueries : List Query := (List.range 8).map .refRelQ

/-- The 9 queries of `create_sample_data_relationships`
(relationships_loader.py lines 106-226). -/
def sampleRelQueries : List Query := (List.range 9).map .sampleRelQ

/-- The 2 queries of `create_knowledge_graph_relationships`
(relationships_loader.py lines 229-265). -/
def kgRelQueries : List Query := (List.range 2).map .kgRelQ

/-- The 19 queries of the seven `create_knowledge_graph` passes
(3+3+3+3+3+2+2, create_knowledge_graph.py). -/
def knowledgeGraphQueries : List Query := (List.range 19).map .knowledgeGraphQ

/-- The schema-alignment query of `align_application_schema`. -/
def alignSchemaQueries : List Query := [.alignSchemaQ 0]

/-- The 6 constraint/index queries of `create_performance_optimizations`. -/
def perfOptQueries : List Query := (List.range 6).map .perfOptQ

/-- The validation query of `validate_schema_alignment`. -/
def validateQueries : List Query := [.validateQ 0]

/-- Every query any phase may execute. -/
def allQueries : List Query :=
  clearQueries ++ referenceDataQueries ++ sampleDataQueries ++ businessRulesQueries ++
    refRelQueries ++ sampleRelQueries ++ kgRelQueries ++ knowledgeGraphQueries ++
    alignSchemaQueries ++ perfOptQueries ++ validateQueries

/-- Queries whose failure is caught by a per-query `try/except` (logged
and skipped): the clear pass (orchestrator.py lines 102-107), the
reference-data relationship pass (relationships_loader.py lines 96-101),
the knowledge-graph relationship pass (relationships_loader.py lines
263-265), and the index pass (agent_schema_alignment.py lines 119-125). -/
def swallowedQueries : List Query :=
  clearQueries ++ refRelQueries ++ kgRelQueries ++ perfOptQueries

/-- `clear_all_data`: every query is individually `try/except`-wrapped, so
the pass always completes regardless of failures. -/
def clear_all_data (_ : ExecEnv) : Bool := true

/-- `load_reference_data`: a raising query reaches the phase-level
`except` and the phase returns `False`. -/
def load_reference_data (env : ExecEnv) : Bool := referenceDataQueries.all env

/-- `load_sample_data`: a raising query makes the loader return `False`. -/
def load_sample_data (env : ExecEnv) : Bool := sampleDataQueries.all env

/-- `load_business_rules`: a raising query reaches the phase-level
`except` and the phase returns `False`. -/
def load_business_rules (env : ExecEnv) : Bool := businessRulesQueries.all env

/-- `create_reference_data_relationships`: each query is individually
`try/except`-wrapped (relationships_loader.py lines 96-101), so the pass
completes whether or not queries fail. -/
def create_reference_data_relationships (_ : ExecEnv) : Bool := true

/-- `create_sample_data_relationships`: its `except` re-`raise`s, so a
failing query propagates to the caller. -/
def create_sample_data_relationships (env : ExecEnv) : Bool := sampleRelQueries.all env

/-- `create_knowledge_graph_relationships`: its `except` only logs a
warning ("not critical failure"), so failures never propagate. -/
def create_knowledge_graph_relationships (_ : ExecEnv) : Bool := true

/-- `create_all_relationships`: runs the three passes in order; only an
exception from the sample-data pass reaches its `except` and yields
`False`. -/
def create_all_relationships (env : ExecEnv) : Bool :=
  create_reference_data_relationships env &&
    (create_sample_data_relationships env && create_knowledge_graph_relationships env)

/-- `create_knowledge_graph`: the seven passes run their queries with no
per-query handler; a failure reaches the function-level `except` and it
returns `False`. -/
def create_knowledge_graph (env : ExecEnv) : Bool := knowledgeGraphQueries.all env

/-- `apply_agent_schema_alignment`: alignment and validation propagate
failures (each sub-step returns `False` on exception); the index pass
swallows per-query failures. -/
def apply_agent_schema_alignment (env : ExecEnv) : Bool :=
  alignSchemaQueries.all env && (true && validateQueries.all env)

/-- `align_schema_for_agents` (orchestrator.py lines 40-63). -/
def align_schema_for_agents (env : ExecEnv) : Bool := apply_agent_schema_alignment env

/-- `load_all_data` (orchestrator.py lines 112-187): run phases 1-7 in
order, halting at the first phase that reports failure.  Returns the
overall boolean and the list of phase numbers that were executed. -/
def load_all_data (env : ExecEnv) : Bool × List Nat :=
  let _ := clear_all_data env
  if ¬ load_reference_data env then (false, [1, 2])
  else if ¬ load_sample_data env then (false, [1, 2, 3])
  else if ¬ load_business_rules env then (false, [1, 2, 3, 4])
  else if ¬ create_all_relationships env then (false, [1, 2, 3, 4, 5])
  else if ¬ create_knowledge_graph env then (false, [1, 2, 3, 4, 5, 6])
  else if ¬ align_schema_for_agents env then (false, [1, 2, 3, 4, 5, 6, 7])
  else (true, [1, 2, 3, 4, 5, 6, 7])

/-- An execution environment in which exactly one query of the
reference-data relationship pass raises. -/
def envRefRelFail : ExecEnv := fun q => decide (q ≠ .refRelQ 0)

/-- An execution environment in which exactly one knowledge-graph query
raises. -/
def envKnowledgeGraphFail : ExecEnv := fun q => decide (q ≠ .knowledgeGraphQ 0)

end Orchestrator

/-! ## Concrete fixtures

Sample records in the shape produced by the sample-data loader, used to
instantiate the theorems below at concrete inputs. -/

/-- An applicant matching the spec's end-to-end scenario (credit 750). -/
def examplePerson : Person :=
  { person_id := "PERSON_001", credit_score := some 750 }

/-- The end-to-end scenario application: income 10000, debts 2000, 25%
down, loan 400000, with `calculated_dti = 0.20` already computed. -/
def exampleApplication : Application :=
  { application_id := "APP_001_1", loan_amount := some 400000
    monthly_income := some 10000, monthly_debts := some 2000
    down_payment_percentage := some (25/100), calculated_dti := some (2000/10000) }

/-- A jumbo-profile applicant (credit 720). -/
def jumboPerson : Person :=
  { person_id := "PERSON_002", credit_score := some 720 }

/-- The jumbo scenario application: loan 900000, 25% down, DTI 0.20. -/
def jumboApplication : Application :=
  { application_id := "APP_002_1", loan_amount := some 900000
    down_payment_percentage := some (25/100), calculated_dti := some (20/100) }

/-- An FHA-profile applicant (credit 620). -/
def fhaPerson : Person :=
  { person_id := "PERSON_003", credit_score := some 620 }

/-- An FHA-profile application: 4% down, DTI 0.40. -/
def fhaApplication : Application :=
  { application_id := "APP_003_1", down_payment_percentage := some (4/100)
    calculated_dti := some (40/100) }

/-- A zero-income application: `calculated_dti` was never computed. -/
def zeroIncomeApplication : Application :=
  { application_id := "APP_004_1", monthly_income := some 0
    monthly_debts := some 500, down_payment_percentage := some (5/100) }

/-- The loan-program catalog loaded by the reference-data loader. -/
def exampleLoanPrograms : List String := ["Conventional", "FHA", "VA", "USDA", "Jumbo"]

/-- The underwriting-rule catalog records the risk queries route to. -/
def exampleUnderwritingRules : List UnderwritingRule :=
  [{ rule_id := "UW_AUTO", rule_type := "AutoApproval" },
   { rule_id := "UW_MANUAL", rule_type := "ManualReview" }]

/-- The business-rule record the DTI queries attach edges to. -/
def exampleBusinessRules : List BusinessRule :=
  [{ rule_id := "BR_DTI", rule_type := "DebtToIncomeCalculation" }]

/-- A one-pair store around the end-to-end scenario. -/
def exampleStore : Store :=
  { pairs := [(examplePerson, exampleApplication)]
    loanPrograms := exampleLoanPrograms
    underwritingRules := exampleUnderwritingRules
    businessRules := exampleBusinessRules
    edges := [] }

/-- A one-pair store around the jumbo scenario. -/
def jumboStore : Store :=
  { pairs := [(jumboPerson, jumboApplication)]
    loanPrograms := exampleLoanPrograms
    underwritingRules := exampleUnderwritingRules
    businessRules := exampleBusinessRules
    edges := [] }

/-- A one-pair store around the FHA scenario. -/
def fhaStore : Store :=
  { pairs := [(fhaPerson, fhaApplication)]
    loanPrograms := exampleLoanPrograms
    underwritingRules := exampleUnderwritingRules
    businessRules := exampleBusinessRules
    edges := [] }

/-- A one-pair store around the zero-income application. -/
def zeroIncomeStore : Store :=
  { pairs := [(examplePerson, zeroIncomeApplication)]
    loanPrograms := exampleLoanPrograms
    underwritingRules := exampleUnderwritingRules
    businessRules := exampleBusinessRules
    edges := [] }

/-! ## Auxiliary lemmas -/

theorem credit_score_points_mem (cs : Option ℤ) :
    credit_score_points cs = 10 ∨ credit_score_points cs = 8 ∨
      credit_score_points cs = 6 ∨ credit_score_points cs = 3 := by
  cases cs with
  | none => simp [credit_score_points]
  | some c => simp only [credit_score_points]; split_ifs <;> simp

theorem dti_points_mem (d : Option ℚ) :
    dti_points d = 10 ∨ dti_points d = 8 ∨ dti_points d = 5 ∨ dti_points d = 2 := by
  cases d with
  | none => simp [dti_points]
  | some v => simp only [dti_points]; split_ifs <;> simp

theorem down_payment_points_mem (v : Option ℚ) :
    down_payment_points v = 10 ∨ down_payment_points v = 7 ∨
      down_payment_points v = 5 ∨ down_payment_points v = 3 := by
  cases v with
  | none => simp [down_payment_points]
  | some w => simp only [down_payment_points]; split_ifs <;> simp

theorem risk_score_bounds (p : Person) (a : Application) :
    8 ≤ risk_score p a ∧ risk_score p a ≤ 30 := by
  have h1 := credit_score_points_mem p.credit_score
  have h2 := dti_points_mem a.calculated_dti
  have h3 := down_payment_points_mem a.down_payment_percentage
  unfold risk_score
  rcases h1 with h1 | h1 | h1 | h1 <;> rcases h2 with h2 | h2 | h2 | h2 <;>
    rcases h3 with h3 | h3 | h3 | h3 <;> rw [h1, h2, h3] <;> norm_num

theorem risk_pass_pair_mem (s : Store) (p : Person) (a : Application)
    (h : (p, a) ∈ s.pairs) :
    (p, riskAssessApp p a) ∈ (create_risk_assessment_knowledge s).pairs :=
  List.mem_map_of_mem (fun pr => (pr.1, riskAssessApp pr.1 pr.2)) h

theorem mediumBandApp_dti (a : Application) :
    (mediumBandApp a).calculated_dti = a.calculated_dti := by
  unfold mediumBandApp
  cases h : a.calculated_dti <;> simp [h] <;> split_ifs <;> simp [h]

theorem highBandApp_dti (a : Application) :
    (highBandApp a).calculated_dti = a.calculated_dti := by
  unfold highBandApp
  cases h : a.calculated_dti <;> simp [h] <;> split_ifs <;> simp [h]

theorem dti_pass_pair_mem (s : Store) (p : Person) (a : Application)
    (h : (p, a) ∈ s.pairs) :
    (p, dtiClassifiedApp a) ∈ (create_income_debt_knowledge s).pairs := by
  have := List.mem_map_of_mem
    (fun pr : Person × Application => (pr.1, dtiClassifiedApp pr.2)) h
  simpa [create_income_debt_knowledge, dtiClassifiedApp, List.map_map,
    Function.comp] using this

theorem mediumBandApp_low (a : Application) :
    (mediumBandApp a).lowRiskDTI = a.lowRiskDTI := by
  unfold mediumBandApp
  cases h : a.calculated_dti <;> simp [h] <;> split_ifs <;> simp

theorem mediumBandApp_high (a : Application) :
    (mediumBandApp a).highRiskDTI = a.highRiskDTI := by
  unfold mediumBandApp
  cases h : a.calculated_dti <;> simp [h] <;> split_ifs <;> simp

theorem mediumBandApp_medium (a : Application) (d : ℚ)
    (hd : a.calculated_dti = some d) :
    (mediumBandApp a).mediumRiskDTI =
      (a.mediumRiskDTI || decide (28/100 < d ∧ d ≤ 43/100)) := by
  unfold mediumBandApp
  rw [hd]
  dsimp only
  split_ifs with hc <;> simp [hc]

theorem highBandApp_low (a : Application) :
    (highBandApp a).lowRiskDTI = a.lowRiskDTI := by
  unfold highBandApp
  cases h : a.calculated_dti <;> simp [h] <;> split_ifs <;> simp

theorem highBandApp_medium (a : Application) :
    (highBandApp a).mediumRiskDTI = a.mediumRiskDTI := by
  unfold highBandApp
  cases h : a.calculated_dti <;> simp [h] <;> split_ifs <;> simp

theorem highBandApp_highLabel (a : Application) (d : ℚ)
    (hd : a.calculated_dti = some d) :
    (highBandApp a).highRiskDTI = (a.highRiskDTI || decide (43/100 < d)) := by
  unfold highBandApp
  rw [hd]
  dsimp only
  split_ifs with hc <;> simp [hc]

/-! ## Claim theorems -/

/-- C1: for every Person-Application pair processed by the risk-assessment
pass, the persisted `calculated_risk_score` equals `credit_score_points +
dti_points + down_payment_points` with the tier tables of the source
`CASE` expressions; the score always lies in `[8, 30]`; the score is 30 at
(credit 740, dti 0.28, down 0.20) and 8 at (credit 300, dti 0.50, down 0.0). -/
theorem risk_score_is_tier_sum (s : Store) (p : Person) (a : Application)
    (h : (p, a) ∈ s.pairs) :
    (p, riskAssessApp p a) ∈ (create_risk_assessment_knowledge s).pairs ∧
    (riskAssessApp p a).calculated_risk_score =
      some (credit_score_points p.credit_score + dti_points a.calculated_dti +
        down_payment_points a.down_payment_percentage) ∧
    8 ≤ risk_score p a ∧ risk_score p a ≤ 30 ∧
    risk_score { person_id := "hi", credit_score := some 740 }
      { application_id := "hi", calculated_dti := some (28/100),
        down_payment_percentage := some (20/100) } = 30 ∧
    risk_score { person_id := "lo", credit_score := some 300 }
      { application_id := "lo", calculated_dti := some (50/100),
        down_payment_percentage := some 0 } = 8 := by
  refine ⟨risk_pass_pair_mem s p a h, rfl, (risk_score_bounds p a).1,
    (risk_score_bounds p a).2, ?_, ?_⟩ <;>
    norm_num [risk_score, credit_score_points, dti_points, down_payment_points]

/-- C1 witness: the theorem instantiated at the end-to-end fixture. -/
theorem risk_score_is_tier_sum_witness :
    (examplePerson, riskAssessApp examplePerson exampleApplication) ∈
      (create_risk_assessment_knowledge exampleStore).pairs ∧
    (riskAssessApp examplePerson exampleApplication).calculated_risk_score =
      some (credit_score_points examplePerson.credit_score +
        dti_points exampleApplication.calculated_dti +
        down_payment_points exampleApplication.down_payment_percentage) ∧
    8 ≤ risk_score examplePerson exampleApplication ∧
    risk_score examplePerson exampleApplication ≤ 30 ∧
    risk_score { person_id := "hi", credit_score := some 740 }
      { application_id := "hi", calculated_dti := some (28/100),
        down_payment_percentage := some (20/100) } = 30 ∧
    risk_score { person_id := "lo", credit_score := some 300 }
      { application_id := "lo", calculated_dti := some (50/100),
        down_payment_percentage := some 0 } = 8 :=
  risk_score_is_tier_sum exampleStore examplePerson exampleApplication
    (by simp [exampleStore])

/-- C2: the persisted `risk_category` of a scored application is exactly
LowRisk when the score is at least 25, MediumRisk when it is in `[18, 25)`
and HighRisk below 18, each band inclusive on its lower edge: 25 is
LowRisk, 24 and 18 are MediumRisk, 17 is HighRisk. -/
theorem risk_category_bands (s : Store) (p : Person) (a : Application) (rs : ℤ)
    (h : (p, a) ∈ s.pairs)
    (hrs : (riskAssessApp p a).calculated_risk_score = some rs) :
    (riskAssessApp p a).risk_category = some (risk_category_of rs) ∧
    (risk_category_of rs = .LowRisk ↔ 25 ≤ rs) ∧
    (risk_category_of rs = .MediumRisk ↔ 18 ≤ rs ∧ rs < 25) ∧
    (risk_category_of rs = .HighRisk ↔ rs < 18) ∧
    risk_category_of 25 = .LowRisk ∧ risk_category_of 24 = .MediumRisk ∧
    risk_category_of 18 = .MediumRisk ∧ risk_category_of 17 = .HighRisk := by
  have hs : rs = risk_score p a := by
    simpa [riskAssessApp] using hrs.symm
  subst hs
  refine ⟨rfl, ?_, ?_, ?_, by decide, by decide, by decide, by decide⟩ <;>
    · unfold risk_category_of
      split_ifs <;> simp <;> omega

/-- C2 witness: the theorem instantiated at the end-to-end fixture,
whose risk score is 30. -/
theorem risk_category_bands_witness :
    (riskAssessApp examplePerson exampleApplication).risk_category =
      some (risk_category_of 30) ∧
    (risk_category_of 30 = .LowRisk ↔ 25 ≤ (30 : ℤ)) ∧
    (risk_category_of 30 = .MediumRisk ↔ 18 ≤ (30 : ℤ) ∧ (30 : ℤ) < 25) ∧
    (risk_category_of 30 = .HighRisk ↔ (30 : ℤ) < 18) ∧
    risk_category_of 25 = .LowRisk ∧ risk_category_of 24 = .MediumRisk ∧
    risk_category_of 18 = .MediumRisk ∧ risk_category_of 17 = .HighRisk :=
  risk_category_bands exampleStore examplePerson exampleApplication 30
    (by simp [exampleStore])
    (by norm_num [riskAssessApp, risk_score, credit_score_points, dti_points,
      down_payment_points, examplePerson, exampleApplication])

/-- C10: an application whose `calculated_dti` was never set is still
processed by the risk-scoring pass: the DTI `CASE` falls through to the
`ELSE` value 2, and the application is assigned a `calculated_risk_score`
and a `risk_category` all the same. -/
theorem null_dti_still_scored (s : Store) (p : Person) (a : Application)
    (h : (p, a) ∈ s.pairs) (hdti : a.calculated_dti = none) :
    dti_points a.calculated_dti = 2 ∧
    (riskAssessApp p a).calculated_risk_score =
      some (credit_score_points p.credit_score + 2 +
        down_payment_points a.down_payment_percentage) ∧
    (riskAssessApp p a).risk_category = some (risk_category_of (risk_score p a)) ∧
    (p, riskAssessApp p a) ∈ (create_risk_assessment_knowledge s).pairs := by
  have h2 : dti_points a.calculated_dti = 2 := by rw [hdti]; rfl
  exact ⟨h2, by simp [riskAssessApp, risk_score, h2], rfl, risk_pass_pair_mem s p a h⟩

/-- C10 witness: the zero-income application (its `calculated_dti` is
absent) still gets a score and a category. -/
theorem null_dti_still_scored_witness :
    dti_points zeroIncomeApplication.calculated_dti = 2 ∧
    (riskAssessApp examplePerson zeroIncomeApplication).calculated_risk_score =
      some (credit_score_points examplePerson.credit_score + 2 +
        down_payment_points zeroIncomeApplication.down_payment_percentage) ∧
    (riskAssessApp examplePerson zeroIncomeApplication).risk_category =
      some (risk_category_of (risk_score examplePerson zeroIncomeApplication)) ∧
    (examplePerson, riskAssessApp examplePerson zeroIncomeApplication) ∈
      (create_risk_assessment_knowledge zeroIncomeStore).pairs :=
  null_dti_still_scored zeroIncomeStore examplePerson zeroIncomeApplication
    (by simp [zeroIncomeStore]) rfl

/-- C3: for every matched application with `monthly_income > 0` and
`monthly_debts >= 0` the classifier sets `calculated_dti` to exactly
`monthly_debts / monthly_income`; with `monthly_income` zero or absent the
application is excluded from DTI classification (`calculated_dti` is not
set) and, classification being a total function, no exception arises. -/
theorem calculated_dti_exact (s : Store) (p : Person) (a : Application)
    (h : (p, a) ∈ s.pairs) :
    (p, dtiClassifiedApp a) ∈ (create_income_debt_knowledge s).pairs ∧
    (∀ income debts : ℚ, a.monthly_income = some income →
      a.monthly_debts = some debts → 0 < income → 0 ≤ debts →
      (dtiClassifiedApp a).calculated_dti = some (debts / income)) ∧
    ((a.monthly_income = none ∨ a.monthly_income = some 0) →
      (dtiClassifiedApp a).calculated_dti = a.calculated_dti ∧
      (a.calculated_dti = none → dtiClassifiedApp a = a)) := by
  refine ⟨dti_pass_pair_mem s p a h, ?_, ?_⟩
  · intro income debts h1 h2 hpos hnn
    simp [dtiClassifiedApp, highBandApp_dti, mediumBandApp_dti, incomeDebtApp,
      h1, h2, hpos, hnn]
  · intro hz
    have hself : incomeDebtApp a = a := by
      rcases hz with h1 | h1
      · simp [incomeDebtApp, h1]
      · cases h2 : a.monthly_debts <;> simp [incomeDebtApp, h1, h2]
    refine ⟨?_, ?_⟩
    · rw [dtiClassifiedApp, highBandApp_dti, mediumBandApp_dti, hself]
    · intro hd
      rw [dtiClassifiedApp, hself]
      rw [show mediumBandApp a = a by simp [mediumBandApp, hd]]
      simp [highBandApp, hd]

/-- C3 witness: the theorem instantiated at the end-to-end fixture
(income 10000, debts 2000). -/
theorem calculated_dti_exact_witness :
    (examplePerson, dtiClassifiedApp exampleApplication) ∈
      (create_income_debt_knowledge exampleStore).pairs ∧
    (∀ income debts : ℚ, exampleApplication.monthly_income = some income →
      exampleApplication.monthly_debts = some debts → 0 < income → 0 ≤ debts →
      (dtiClassifiedApp exampleApplication).calculated_dti = some (debts / income)) ∧
    ((exampleApplication.monthly_income = none ∨
        exampleApplication.monthly_income = some 0) →
      (dtiClassifiedApp exampleApplication).calculated_dti =
        exampleApplication.calculated_dti ∧
      (exampleApplication.calculated_dti = none →
        dtiClassifiedApp exampleApplication = exampleApplication)) :=
  calculated_dti_exact exampleStore examplePerson exampleApplication
    (by simp [exampleStore])

/-- C4: for every application whose `calculated_dti` the pass computes
(from positive income and non-negative debts, starting with no DTI band
label), the assigned band is `LowRiskDTI` iff `dti <= 0.28`,
`MediumRiskDTI` iff `0.28 < dti <= 0.43`, `HighRiskDTI` iff `dti > 0.43`;
the three bands are mutually exclusive and cover every defined DTI value. -/
theorem dti_band_partition (s : Store) (p : Person) (a : Application)
    (income debts : ℚ) (h : (p, a) ∈ s.pairs)
    (hl : a.lowRiskDTI = false) (hm : a.mediumRiskDTI = false)
    (hh : a.highRiskDTI = false)
    (h1 : a.monthly_income = some income) (h2 : a.monthly_debts = some debts)
    (hpos : 0 < income) (hnn : 0 ≤ debts) :
    (p, dtiClassifiedApp a) ∈ (create_income_debt_knowledge s).pairs ∧
    ((dtiClassifiedApp a).lowRiskDTI = true ↔ debts / income ≤ 28/100) ∧
    ((dtiClassifiedApp a).mediumRiskDTI = true ↔
      28/100 < debts / income ∧ debts / income ≤ 43/100) ∧
    ((dtiClassifiedApp a).highRiskDTI = true ↔ 43/100 < debts / income) ∧
    ((dtiClassifiedApp a).lowRiskDTI && (dtiClassifiedApp a).mediumRiskDTI) = false ∧
    ((dtiClassifiedApp a).lowRiskDTI && (dtiClassifiedApp a).highRiskDTI) = false ∧
    ((dtiClassifiedApp a).mediumRiskDTI && (dtiClassifiedApp a).highRiskDTI) = false ∧
    ((dtiClassifiedApp a).lowRiskDTI || (dtiClassifiedApp a).mediumRiskDTI ||
      (dtiClassifiedApp a).highRiskDTI) = true := by
  have hbd : (incomeDebtApp a).calculated_dti = some (debts / income) := by
    simp [incomeDebtApp, h1, h2, hpos, hnn]
  have hbl : (incomeDebtApp a).lowRiskDTI = decide (debts / income ≤ 28/100) := by
    simp [incomeDebtApp, h1, h2, hpos, hnn, hl]
  have hbm : (incomeDebtApp a).mediumRiskDTI = false := by
    simp [incomeDebtApp, h1, h2, hpos, hnn, hm]
  have hbh : (incomeDebtApp a).highRiskDTI = false := by
    simp [incomeDebtApp, h1, h2, hpos, hnn, hh]
  have hmd : (mediumBandApp (incomeDebtApp a)).calculated_dti =
      some (debts / income) := by rw [mediumBandApp_dti, hbd]
  have hL : (dtiClassifiedApp a).lowRiskDTI = decide (debts / income ≤ 28/100) := by
    rw [dtiClassifiedApp, highBandApp_low, mediumBandApp_low, hbl]
  have hM : (dtiClassifiedApp a).mediumRiskDTI =
      decide (28/100 < debts / income ∧ debts / income ≤ 43/100) := by
    rw [dtiClassifiedApp, highBandApp_medium,
      mediumBandApp_medium (incomeDebtApp a) (debts / income) hbd, hbm,
      Bool.false_or]
  have hH : (dtiClassifiedApp a).highRiskDTI = decide (43/100 < debts / income) := by
    rw [dtiClassifiedApp,
      highBandApp_highLabel (mediumBandApp (incomeDebtApp a)) (debts / income) hmd,
      mediumBandApp_high, hbh, Bool.false_or]
  refine ⟨dti_pass_pair_mem s p a h, ?_⟩
  rw [hL, hM, hH]
  rcases le_or_lt (debts / income) (28/100) with hc1 | hc1 <;>
    rcases le_or_lt (debts / income) (43/100) with hc2 | hc2
  · simp [hc1, hc2, not_lt.mpr hc1]
  · exact absurd hc2 (not_lt.mpr (hc1.trans (by norm_num)))
  · simp [hc1, hc2, not_le.mpr hc1, not_lt.mpr hc2]
  · simp [hc1, hc2, not_le.mpr hc1, not_le.mpr hc2]

/-- C4 witness: the theorem instantiated at the end-to-end fixture
(dti = 0.20, the low band). -/
theorem dti_band_partition_witness :
    (examplePerson, dtiClassifiedApp exampleApplication) ∈
      (create_income_debt_knowledge exampleStore).pairs ∧
    ((dtiClassifiedApp exampleApplication).lowRiskDTI = true ↔
      (2000 : ℚ) / 10000 ≤ 28/100) ∧
    ((dtiClassifiedApp exampleApplication).mediumRiskDTI = true ↔
      28/100 < (2000 : ℚ) / 10000 ∧ (2000 : ℚ) / 10000 ≤ 43/100) ∧
    ((dtiClassifiedApp exampleApplication).highRiskDTI = true ↔
      43/100 < (2000 : ℚ) / 10000) ∧
    ((dtiClassifiedApp exampleApplication).lowRiskDTI &&
      (dtiClassifiedApp exampleApplication).mediumRiskDTI) = false ∧
    ((dtiClassifiedApp exampleApplication).lowRiskDTI &&
      (dtiClassifiedApp exampleApplication).highRiskDTI) = false ∧
    ((dtiClassifiedApp exampleApplication).mediumRiskDTI &&
      (dtiClassifiedApp exampleApplication).highRiskDTI) = false ∧
    ((dtiClassifiedApp exampleApplication).lowRiskDTI ||
      (dtiClassifiedApp exampleApplication).mediumRiskDTI ||
      (dtiClassifiedApp exampleApplication).highRiskDTI) = true :=
  dti_band_partition exampleStore examplePerson exampleApplication 10000 2000
    (by simp [exampleStore]) rfl rfl rfl rfl rfl (by norm_num) (by norm_num)

/-- C5: for every matched pair, the Jumbo query creates a `QUALIFIES_FOR`
edge, priority "medium", carrying the loan amount as edge metadata, if and
only if `loan_amount > 766550` and `credit_score >= 700` and
`down_payment_percentage >= 0.20` and `calculated_dti <= 0.38`. -/
theorem jumbo_qualification (s : Store) (p : Person) (a : Application)
    (hJ : "Jumbo" ∈ s.loanPrograms) (h : (p, a) ∈ s.pairs) :
    (jumbo_edges_for_pair s.loanPrograms p a ≠ [] ↔ jumbo_condition p a = true) ∧
    (∀ e ∈ jumbo_edges_for_pair s.loanPrograms p a,
      e = jumbo_edge p a ∧ e.rel_type = "QUALIFIES_FOR" ∧
      e.priority = some .medium ∧ e.loan_amount = a.loan_amount) ∧
    (jumbo_condition p a = true →
      jumbo_edge p a ∈ (create_loan_program_matching_knowledge s).edges) := by
  have hmem : jumbo_condition p a = true →
      jumbo_edge p a ∈ jumbo_edges_for_pair s.loanPrograms p a := by
    intro hc
    exact List.mem_filterMap.mpr ⟨"Jumbo", hJ, by rw [if_pos ⟨rfl, hc⟩]⟩
  refine ⟨⟨?_, fun hc => List.ne_nil_of_mem (hmem hc)⟩, ?_, ?_⟩
  · intro hne
    by_contra hc
    apply hne
    unfold jumbo_edges_for_pair
    rw [List.filterMap_eq_nil]
    intro name _
    rw [if_neg]
    rintro ⟨-, hcc⟩
    exact hc hcc
  · intro e he
    rcases List.mem_filterMap.mp he with ⟨name, -, hf⟩
    by_cases hcond : name = "Jumbo" ∧ jumbo_condition p a
    · rw [if_pos hcond] at hf
      cases hf
      exact ⟨rfl, rfl, rfl, rfl⟩
    · rw [if_neg hcond] at hf
      cases hf
  · intro hc
    have h1 : jumbo_edge p a ∈ matching_edges s := by
      unfold matching_edges
      exact List.mem_append_right _ (List.mem_flatMap.mpr ⟨(p, a), h, hmem hc⟩)
    exact List.mem_append_right _ h1

/-- C5 witness: credit 720, loan 900000, 25% down, DTI 0.20 — the Jumbo
edge is created with the loan amount attached. -/
theorem jumbo_qualification_witness :
    (jumbo_edges_for_pair jumboStore.loanPrograms jumboPerson jumboApplication ≠ [] ↔
      jumbo_condition jumboPerson jumboApplication = true) ∧
    (∀ e ∈ jumbo_edges_for_pair jumboStore.loanPrograms jumboPerson jumboApplication,
      e = jumbo_edge jumboPerson jumboApplication ∧ e.rel_type = "QUALIFIES_FOR" ∧
      e.priority = some .medium ∧ e.loan_amount = jumboApplication.loan_amount) ∧
    (jumbo_condition jumboPerson jumboApplication = true →
      jumbo_edge jumboPerson jumboApplication ∈
        (create_loan_program_matching_knowledge jumboStore).edges) :=
  jumbo_qualification jumboStore jumboPerson jumboApplication
    (by simp [jumboStore, exampleLoanPrograms]) (by simp [jumboStore])

/-- C6: for every matched pair, the FHA query creates a `RECOMMENDED_FOR`
edge with priority "high" if and only if `down_payment_percentage <= 0.05`
and `580 <= credit_score <= 680` and `calculated_dti <= 0.57`. -/
theorem fha_recommendation (s : Store) (p : Person) (a : Application)
    (hF : "FHA" ∈ s.loanPrograms) (h : (p, a) ∈ s.pairs) :
    (fha_edges_for_pair s.loanPrograms p a ≠ [] ↔ fha_condition p a = true) ∧
    (∀ e ∈ fha_edges_for_pair s.loanPrograms p a,
      e = fha_edge p ∧ e.rel_type = "RECOMMENDED_FOR" ∧
      e.priority = some .high ∧ e.dst = "FHA") ∧
    (fha_condition p a = true →
      fha_edge p ∈ (create_loan_program_matching_knowledge s).edges) := by
  have hmem : fha_condition p a = true →
      fha_edge p ∈ fha_edges_for_pair s.loanPrograms p a := by
    intro hc
    exact List.mem_filterMap.mpr ⟨"FHA", hF, by rw [if_pos ⟨rfl, hc⟩]⟩
  refine ⟨⟨?_, fun hc => List.ne_nil_of_mem (hmem hc)⟩, ?_, ?_⟩
  · intro hne
    by_contra hc
    apply hne
    unfold fha_edges_for_pair
    rw [List.filterMap_eq_nil]
    intro name _
    rw [if_neg]
    rintro ⟨-, hcc⟩
    exact hc hcc
  · intro e he
    rcases List.mem_filterMap.mp he with ⟨name, -, hf⟩
    by_cases hcond : name = "FHA" ∧ fha_condition p a
    · rw [if_pos hcond] at hf
      cases hf
      exact ⟨rfl, rfl, rfl, rfl⟩
    · rw [if_neg hcond] at hf
      cases hf
  · intro hc
    have h1 : fha_edge p ∈ matching_edges s := by
      unfold matching_edges
      exact List.mem_append_left _
        (List.mem_append_right _ (List.mem_flatMap.mpr ⟨(p, a), h, hmem hc⟩))
    exact List.mem_append_right _ h1

/-- C6 witness: credit 620, 4% down, DTI 0.40 — the FHA edge is created
with priority "high". -/
theorem fha_recommendation_witness :
    (fha_edges_for_pair fhaStore.loanPrograms fhaPerson fhaApplication ≠ [] ↔
      fha_condition fhaPerson fhaApplication = true) ∧
    (∀ e ∈ fha_edges_for_pair fhaStore.loanPrograms fhaPerson fhaApplication,
      e = fha_edge fhaPerson ∧ e.rel_type = "RECOMMENDED_FOR" ∧
      e.priority = some .high ∧ e.dst = "FHA") ∧
    (fha_condition fhaPerson fhaApplication = true →
      fha_edge fhaPerson ∈ (create_loan_program_matching_knowledge fhaStore).edges) :=
  fha_recommendation fhaStore fhaPerson fhaApplication
    (by simp [fhaStore, exampleLoanPrograms]) (by simp [fhaStore])

theorem risk_category_of_low_iff (rs : ℤ) :
    risk_category_of rs = .LowRisk ↔ 25 ≤ rs := by
  unfold risk_category_of
  split_ifs <;> simp_all <;> omega

theorem risk_category_of_medium_iff (rs : ℤ) :
    risk_category_of rs = .MediumRisk ↔ 18 ≤ rs ∧ rs < 25 := by
  unfold risk_category_of
  split_ifs <;> simp_all <;> omega

theorem risk_category_of_high_iff (rs : ℤ) :
    risk_category_of rs = .HighRisk ↔ rs < 18 := by
  unfold risk_category_of
  split_ifs <;> simp_all <;> omega

/-- C7: every application labelled LowRisk by the risk pass is routed to
each `AutoApproval` underwriting rule by an `ELIGIBLE_FOR` edge, every
HighRisk application to each `ManualReview` rule by a `REQUIRES` edge, and
a MediumRisk application gets no routing edge from either routing query. -/
theorem risk_tier_routing (s : Store) (p : Person) (a : Application)
    (rule : UnderwritingRule) (hpair : (p, a) ∈ s.pairs)
    (hrule : rule ∈ s.underwritingRules)
    (hl : a.lowRisk = false) (hh : a.highRisk = false) :
    (rule.rule_type = "AutoApproval" →
      risk_category_of (risk_score p a) = .LowRisk →
      ({ rel_type := "ELIGIBLE_FOR", src := a.application_id,
         dst := rule.rule_id } : Edge) ∈
        (create_risk_assessment_knowledge s).edges) ∧
    (rule.rule_type = "ManualReview" →
      risk_category_of (risk_score p a) = .HighRisk →
      ({ rel_type := "REQUIRES", src := a.application_id,
         dst := rule.rule_id } : Edge) ∈
        (create_risk_assessment_knowledge s).edges) ∧
    (risk_category_of (risk_score p a) = .MediumRisk →
      auto_approval_edges_for_app s.underwritingRules (riskAssessApp p a) = [] ∧
      manual_review_edges_for_app s.underwritingRules (riskAssessApp p a) = []) := by
  have hbl : (riskAssessApp p a).lowRisk = decide (25 ≤ risk_score p a) := by
    simp [riskAssessApp, hl]
  have hbh : (riskAssessApp p a).highRisk = decide (risk_score p a < 18) := by
    simp [riskAssessApp, hh]
  have hbmem : riskAssessApp p a ∈
      ((create_risk_assessment_knowledge s).pairs.map Prod.snd) :=
    List.mem_map_of_mem Prod.snd (risk_pass_pair_mem s p a hpair)
  refine ⟨?_, ?_, ?_⟩
  · intro ht hcat
    have h25 : 25 ≤ risk_score p a := (risk_category_of_low_iff _).mp hcat
    have hlowTrue : (riskAssessApp p a).lowRisk = true := by
      rw [hbl]; exact decide_eq_true h25
    have hedge :
        ({ rel_type := "ELIGIBLE_FOR", src := a.application_id,
           dst := rule.rule_id } : Edge) ∈
          auto_approval_edges_for_app s.underwritingRules (riskAssessApp p a) :=
      List.mem_filterMap.mpr ⟨rule, hrule, by rw [if_pos ⟨hlowTrue, ht⟩]; rfl⟩
    exact List.mem_append_left _ (List.mem_append_right _
      (List.mem_flatMap.mpr ⟨riskAssessApp p a, hbmem, hedge⟩))
  · intro ht hcat
    have h18 : risk_score p a < 18 := (risk_category_of_high_iff _).mp hcat
    have hhighTrue : (riskAssessApp p a).highRisk = true := by
      rw [hbh]; exact decide_eq_true h18
    have hedge :
        ({ rel_type := "REQUIRES", src := a.application_id,
           dst := rule.rule_id } : Edge) ∈
          manual_review_edges_for_app s.underwritingRules (riskAssessApp p a) :=
      List.mem_filterMap.mpr ⟨rule, hrule, by rw [if_pos ⟨hhighTrue, ht⟩]; rfl⟩
    exact List.mem_append_right _
      (List.mem_flatMap.mpr ⟨riskAssessApp p a, hbmem, hedge⟩)
  · intro hcat
    rcases (risk_category_of_medium_iff _).mp hcat with ⟨hlo, hhi⟩
    have hlowFalse : (riskAssessApp p a).lowRisk = false := by
      rw [hbl]; exact decide_eq_false (by omega)
    have hhighFalse : (riskAssessApp p a).highRisk = false := by
      rw [hbh]; exact decide_eq_false (by omega)
    constructor
    · unfold auto_approval_edges_for_app
      rw [List.filterMap_eq_nil]
      intro r _
      rw [if_neg]
      rintro ⟨hc, -⟩
      rw [hlowFalse] at hc
      cases hc
    · unfold manual_review_edges_for_app
      rw [List.filterMap_eq_nil]
      intro r _
      rw [if_neg]
      rintro ⟨hc, -⟩
      rw [hhighFalse] at hc
      cases hc

/-- C7 witness: the end-to-end fixture (risk score 30, LowRisk) is routed
to the `AutoApproval` rule. -/
theorem risk_tier_routing_witness :
    (UnderwritingRule.rule_type { rule_id := "UW_AUTO", rule_type := "AutoApproval" } =
        "AutoApproval" →
      risk_category_of (risk_score examplePerson exampleApplication) = .LowRisk →
      ({ rel_type := "ELIGIBLE_FOR", src := exampleApplication.application_id,
         dst := UnderwritingRule.rule_id
           { rule_id := "UW_AUTO", rule_type := "AutoApproval" } } : Edge) ∈
        (create_risk_assessment_knowledge exampleStore).edges) ∧
    (UnderwritingRule.rule_type { rule_id := "UW_AUTO", rule_type := "AutoApproval" } =
        "ManualReview" →
      risk_category_of (risk_score examplePerson exampleApplication) = .HighRisk →
      ({ rel_type := "REQUIRES", src := exampleApplication.application_id,
         dst := UnderwritingRule.rule_id
           { rule_id := "UW_AUTO", rule_type := "AutoApproval" } } : Edge) ∈
        (create_risk_assessment_knowledge exampleStore).edges) ∧
    (risk_category_of (risk_score examplePerson exampleApplication) = .MediumRisk →
      auto_approval_edges_for_app exampleStore.underwritingRules
        (riskAssessApp examplePerson exampleApplication) = [] ∧
      manual_review_edges_for_app exampleStore.underwritingRules
        (riskAssessApp examplePerson exampleApplication) = []) :=
  risk_tier_routing exampleStore examplePerson exampleApplication
    { rule_id := "UW_AUTO", rule_type := "AutoApproval" }
    (by simp [exampleStore])
    (by simp [exampleStore, exampleUnderwritingRules])
    rfl rfl

/-- C9: the eligibility linker is not idempotent: it performs no
duplicate-edge check, so on any starting store a second run of the
loan-program matching pass appends the same edge list again, and the two
runs together create exactly twice as many edges as one run creates. -/
theorem matching_pass_not_idempotent (s : Store) :
    (create_loan_program_matching_knowledge
        (create_loan_program_matching_knowledge s)).edges =
      s.edges ++ matching_edges s ++ matching_edges s ∧
    (create_loan_program_matching_knowledge
        (create_loan_program_matching_knowledge s)).edges.length + s.edges.length =
      2 * (create_loan_program_matching_knowledge s).edges.length := by
  have key : (create_loan_program_matching_knowledge
      (create_loan_program_matching_knowledge s)).edges =
      s.edges ++ matching_edges s ++ matching_edges s := rfl
  refine ⟨key, ?_⟩
  rw [key]
  simp [create_loan_program_matching_knowledge]
  ring


/-- C8 counterexample: in the run `envRefRelFail`, one store query of the
reference-data relationship pass (phase 5) raises, yet — its failure being
caught by the per-query handler of relationships_loader.py lines 96-101 —
the phase completes, every later phase runs, and `load_all_data` returns
success: a store-query failure during a loading phase is NOT always
propagated up, does not always abort the phase, and does not always make
`load_all_data` return `False`. -/
theorem load_all_data_swallows_refrel_failure :
    Orchestrator.envRefRelFail (Orchestrator.Query.refRelQ 0) = false ∧
    Orchestrator.Query.refRelQ 0 ∈ Orchestrator.allQueries ∧
    Orchestrator.load_all_data Orchestrator.envRefRelFail =
      (true, [1, 2, 3, 4, 5, 6, 7]) := by
  refine ⟨by decide, by decide, by decide⟩

/-- C8 (amended): a store-query failure in any pass whose exceptions reach
a phase-level handler (reference data, sample data, business rules,
sample-data relationships, knowledge graph, schema alignment, validation)
aborts the load: `load_all_data` returns `False`.  In particular a
knowledge-graph query failure halts the subsequent phase 7.  But a query
failure confined to the per-query-handled passes (clear, reference-data
relationships, knowledge-graph relationships, index creation) is logged
and skipped and the load still succeeds. -/
theorem load_all_data_failure_propagation :
    (∀ env : Orchestrator.ExecEnv,
      ∀ q ∈ Orchestrator.referenceDataQueries ++ Orchestrator.sampleDataQueries ++
        Orchestrator.businessRulesQueries ++ Orchestrator.sampleRelQueries ++
        Orchestrator.knowledgeGraphQueries ++ Orchestrator.alignSchemaQueries ++
        Orchestrator.validateQueries,
      env q = false → (Orchestrator.load_all_data env).1 = false) ∧
    (∀ env : Orchestrator.ExecEnv,
      (∃ q ∈ Orchestrator.knowledgeGraphQueries, env q = false) →
      (Orchestrator.load_all_data env).1 = false ∧
        7 ∉ (Orchestrator.load_all_data env).2) ∧
    (∀ env : Orchestrator.ExecEnv,
      (∀ q, env q = false → q ∈ Orchestrator.swallowedQueries) →
      Orchestrator.load_all_data env = (true, [1, 2, 3, 4, 5, 6, 7])) := by
  refine ⟨?_, ?_, ?_⟩
  · intro env q hq hf
    unfold Orchestrator.load_all_data
    split_ifs with h1 h2 h3 h4 h5 h6 <;> try rfl
    exfalso
    have h4a : Orchestrator.create_sample_data_relationships env = true := by
      have := h4
      unfold Orchestrator.create_all_relationships at this
      simpa [Orchestrator.create_reference_data_relationships,
        Orchestrator.create_knowledge_graph_relationships] using this
    have h6a : Orchestrator.alignSchemaQueries.all env = true ∧
        Orchestrator.validateQueries.all env = true := by
      have := h6
      unfold Orchestrator.align_schema_for_agents
        Orchestrator.apply_agent_schema_alignment at this
      simpa [Bool.and_eq_true] using this
    simp only [List.mem_append] at hq
    rcases hq with ((((((hq | hq) | hq) | hq) | hq) | hq) | hq)
    · exact absurd (List.all_eq_true.mp h1 q hq) (by simp [hf])
    · exact absurd (List.all_eq_true.mp h2 q hq) (by simp [hf])
    · exact absurd (List.all_eq_true.mp h3 q hq) (by simp [hf])
    · exact absurd (List.all_eq_true.mp h4a q hq) (by simp [hf])
    · exact absurd (List.all_eq_true.mp h5 q hq) (by simp [hf])
    · exact absurd (List.all_eq_true.mp h6a.1 q hq) (by simp [hf])
    · exact absurd (List.all_eq_true.mp h6a.2 q hq) (by simp [hf])
  · rintro env ⟨q, hq, hf⟩
    have hkg : Orchestrator.create_knowledge_graph env = false := by
      unfold Orchestrator.create_knowledge_graph
      rcases hb : Orchestrator.knowledgeGraphQueries.all env with _ | _
      · rfl
      · exact absurd (List.all_eq_true.mp hb q hq) (by simp [hf])
    unfold Orchestrator.load_all_data
    split_ifs with h1 h2 h3 h4 h5 h6 <;> first
      | exact ⟨rfl, by decide⟩
      | (exfalso; exact absurd h5 (by simp [hkg]))
  · intro env hsw
    have key : ∀ L : List Orchestrator.Query,
        (∀ q ∈ L, q ∉ Orchestrator.swallowedQueries) → L.all env = true := by
      intro L hL
      rw [List.all_eq_true]
      intro q hq
      rcases hb : env q with _ | _
      · exact absurd (hsw q hb) (hL q hq)
      · simp
    have k1 := key Orchestrator.referenceDataQueries (by decide)
    have k2 := key Orchestrator.sampleDataQueries (by decide)
    have k3 := key Orchestrator.businessRulesQueries (by decide)
    have k4 := key Orchestrator.sampleRelQueries (by decide)
    have k5 := key Orchestrator.knowledgeGraphQueries (by decide)
    have k6 := key Orchestrator.alignSchemaQueries (by decide)
    have k7 := key Orchestrator.validateQueries (by decide)
    unfold Orchestrator.load_all_data
    rw [if_neg, if_neg, if_neg, if_neg, if_neg, if_neg]
    · simp [Orchestrator.align_schema_for_agents,
        Orchestrator.apply_agent_schema_alignment, k6, k7]
    · simp [Orchestrator.create_knowledge_graph, k5]
    · simp [Orchestrator.create_all_relationships,
        Orchestrator.create_reference_data_relationships,
        Orchestrator.create_sample_data_relationships,
        Orchestrator.create_knowledge_graph_relationships, k4]
    · simp [Orchestrator.load_business_rules, k3]
    · simp [Orchestrator.load_sample_data, k2]
    · simp [Orchestrator.load_reference_data, k1]

/-- C8 witness: the amended theorem applied to the two concrete runs — a
knowledge-graph query failure makes `load_all_data` fail and skips phase
7; a failure confined to the reference-data relationship pass leaves the
load successful. -/
theorem load_all_data_failure_propagation_witness :
    ((Orchestrator.load_all_data Orchestrator.envKnowledgeGraphFail).1 = false ∧
      7 ∉ (Orchestrator.load_all_data Orchestrator.envKnowledgeGraphFail).2) ∧
    Orchestrator.load_all_data Orchestrator.envRefRelFail =
      (true, [1, 2, 3, 4, 5, 6, 7]) :=
  ⟨load_all_data_failure_propagation.2.1 Orchestrator.envKnowledgeGraphFail
      ⟨Orchestrator.Query.knowledgeGraphQ 0, by decide, by decide⟩,
   load_all_data_failure_propagation.2.2 Orchestrator.envRefRelFail
      (by
        intro q hf
        have hq : q = Orchestrator.Query.refRelQ 0 := by
          simpa [Orchestrator.envRefRelFail] using hf
        rw [hq]
        decide)⟩


end MortgageDB
